import Mathlib

/-!
Verification of the SysMon sampling tool (src/sysmon.py) against its
specification.  The Python module is shallowly embedded: the kernel counter
sources (/proc/stat, /proc/net/dev, /proc/meminfo) are injected as explicit
line data, Python floats over the integer-valued counters are modelled as
rationals, and Python exceptions (ValueError, IndexError, ZeroDivisionError,
NameError) are modelled with an explicit error type in Except.  Each
sampler additionally reports whether the file handle it opened was closed on
the exit path that was taken, mirroring the placement (or absence) of the
f.close() calls in the source.
-/

namespace SysMon

/-- The Python exceptions that the sysmon code can raise.  valueError
carries the offending string, as int()/float() do in their message. -/
inductive Err where
  | valueError (arg : String)
  | indexError
  | zeroDivisionError
  | nameError
  deriving DecidableEq

/-- Accumulator pass of splitWS: cur holds the characters of the token
being built, in reverse. -/
def splitWSAux : List Char → List Char → List String
  | cur, [] => if cur.isEmpty then [] else [String.mk cur.reverse]
  | cur, c :: cs =>
    if c.isWhitespace then
      if cur.isEmpty then splitWSAux [] cs
      else String.mk cur.reverse :: splitWSAux [] cs
    else splitWSAux (c :: cur) cs

/-- Python str.split() with no argument: split on runs of whitespace,
discarding empty tokens. -/
def splitWS (s : String) : List String :=
  splitWSAux [] s.data

/-- Does the pattern match at the very start of the text?  Patterns are the
fragment of regular expressions the sysmon code actually passes to
re.search: literal characters plus the . wildcard (each pattern element
consumes exactly one character). -/
def reMatchHere : List Char → List Char → Bool
  | [], _ => true
  | _ :: _, [] => false
  | p :: ps, c :: cs => (p = '.' || p = c) && reMatchHere ps cs

/-- Try the pattern at every start position of the text. -/
def reSearchAux (p : List Char) : List Char → Bool
  | [] => reMatchHere p []
  | c :: cs => reMatchHere p (c :: cs) || reSearchAux p cs

/-- Python re.search(pat, s) is not None, for patterns built from literal
characters and the . wildcard (the only regex constructs reachable from
the sysmon code: user-supplied interface names and the fixed labels
MemTotal: / MemFree). -/
def reSearch (pat s : String) : Bool :=
  reSearchAux pat.data s.data

/-- Value of a digit string, left to right. -/
def digitsValAux (acc : Nat) : List Char → Option Nat
  | [] => some acc
  | c :: cs => if c.isDigit then digitsValAux (acc * 10 + (c.toNat - 48)) cs else none

/-- A non-empty all-digit character list, as a natural number. -/
def parseNatDigits : List Char → Option Nat
  | [] => none
  | cs => digitsValAux 0 cs

/-- Python int(s) on a whitespace-free token: an optional sign followed by
digits; anything else raises ValueError carrying the offending string. -/
def pyInt (s : String) : Except Err Int :=
  match s.data with
  | '-' :: cs =>
    match parseNatDigits cs with
    | some n => .ok (-(n : Int))
    | none => .error (.valueError s)
  | cs =>
    match parseNatDigits cs with
    | some n => .ok ((n : Int))
    | none => .error (.valueError s)

/-- Python float(s) on the tokens that occur in the kernel counter
sources, which are integer literals; the value is carried exactly as a
rational. -/
def pyFloat (s : String) : Except Err Rat :=
  match pyInt s with
  | .ok n => .ok ((n : Rat))
  | .error _ => .error (.valueError s)

/-- Python list indexing xs[i]: IndexError when out of range. -/
def getTok (xs : List String) (i : Nat) : Except Err String :=
  match xs.get? i with
  | some s => .ok s
  | none => .error .indexError

/-- Python float division: raises ZeroDivisionError on a zero
denominator. -/
def pyDiv (a b : Rat) : Except Err Rat :=
  if b = 0 then .error .zeroDivisionError else .ok (a / b)

/-- One reading of the first /proc/stat line, in source order
(sysmon.py:30-33 and 40-43): idle = float(stats[4]), then
total = float(stats[1]) + float(stats[2]) + float(stats[3]) +
float(stats[4]) + float(stats[5]).  Returns (idle, total). -/
def parseCpuLine (line : String) : Except Err (Rat × Rat) := do
  let stats := splitWS line
  let idle ← getTok stats 4 >>= pyFloat
  let t1 ← getTok stats 1 >>= pyFloat
  let t2 ← getTok stats 2 >>= pyFloat
  let t3 ← getTok stats 3 >>= pyFloat
  let t4 ← getTok stats 4 >>= pyFloat
  let t5 ← getTok stats 5 >>= pyFloat
  return (idle, t1 + t2 + t3 + t4 + t5)

/-- get_cpu_utilisation (sysmon.py:16-49) over the two injected readings
of the first /proc/stat line.  The second component records whether the
file handle was closed on the exit path taken: f.close() (line 44) runs
after both readings parse and before the division, so a parse failure
leaves the handle open while the division-by-zero path does not. -/
def getCpuUtilisation (read1 read2 : String) : Except Err Rat × Bool :=
  match parseCpuLine read1 with
  | .error e => (.error e, false)
  | .ok (idle1, total1) =>
    match parseCpuLine read2 with
    | .error e => (.error e, false)
    | .ok (idle2, total2) =>
      match pyDiv (idle2 - idle1) (total2 - total1) with
      | .error e => (.error e, true)
      | .ok q => (.ok (1 - q), true)

/-- Body of the for line in network_stats loop (sysmon.py:67-69 and
78-80): a matching line overwrites the accumulator with its token list;
there is no break. -/
def netLoopStep (iface : String) (acc : List String) (line : String) : List String :=
  if reSearch iface line then splitWS line else acc

/-- The network matching loop starting from an explicit accumulator. -/
def netLoopAux (iface : String) (init lines : List String) : List String :=
  lines.foldl (netLoopStep iface) init

/-- The network matching loop as the source runs it: network_stats starts
out as the readlines() result, and the for statement iterates over that
original list even when the variable is reassigned inside the loop.  If no
line matches, the accumulator is still the raw line list. -/
def netLoop (iface : String) (lines : List String) : List String :=
  netLoopAux iface lines lines

/-- get_network_interface_traffic (sysmon.py:52-88) over the two injected
scans of /proc/net/dev, each a list of lines.  Each reading is
int(network_stats[9]) on the loop result.  f.close() (line 83) runs
only after both readings succeed, so the Boolean handle-closed flag is
false on every error path. -/
def getNetworkInterfaceTraffic (iface : String) (scan1 scan2 : List String) :
    Except Err Int × Bool :=
  match getTok (netLoop iface scan1) 9 >>= pyInt with
  | .error e => (.error e, false)
  | .ok reading1 =>
    match getTok (netLoop iface scan2) 9 >>= pyInt with
    | .error e => (.error e, false)
    | .ok reading2 => (.ok (reading2 - reading1), true)

/-- Body of the memory loop (sysmon.py:101-105): two independent if
tests per line, each overwriting its own variable, no break.  The pair
holds the token lists bound to total_memory and free_memory, none
while still unbound. -/
def memLoopStep (acc : Option (List String) × Option (List String)) (line : String) :
    Option (List String) × Option (List String) :=
  let acc1 := if reSearch "MemTotal:" line then (some (splitWS line), acc.2) else acc
  if reSearch "MemFree" line then (acc1.1, some (splitWS line)) else acc1

/-- The memory matching loop over all lines of the meminfo source. -/
def memLoop (lines : List String) : Option (List String) × Option (List String) :=
  lines.foldl memLoopStep (none, none)

/-- The dictionary returned by get_memory_usage. -/
structure MemUsage where
  memory_in_use : Int
  free_memory : Int
  deriving DecidableEq

/-- get_memory_usage (sysmon.py:90-110) over the injected meminfo lines.
An unbound total_memory/free_memory is a Python NameError, raised in
the evaluation order of line 109 (total_memory[1] first).  The source
never calls f.close() in this function, so the handle-closed flag is
false on every exit path, the successful one included. -/
def getMemoryUsage (lines : List String) : Except Err MemUsage × Bool :=
  match memLoop lines with
  | (total?, free?) =>
    match total? with
    | none => (.error .nameError, false)
    | some total_memory =>
      match getTok total_memory 1 >>= pyInt with
      | .error e => (.error e, false)
      | .ok totalVal =>
        match free? with
        | none => (.error .nameError, false)
        | some free_memory =>
          match getTok free_memory 1 >>= pyInt with
          | .error e => (.error e, false)
          | .ok freeVal =>
            (.ok { memory_in_use := totalVal - freeVal, free_memory := freeVal }, false)

/-- Python "%0.2f" applied to an exact rational: round to the nearest
hundredth and print with exactly two digits after the decimal point. -/
def formatF2 (q : Rat) : String :=
  let n : Int := round (q * 100)
  let m := n.natAbs
  ((if n < 0 then "-" else "") ++ toString (m / 100)) ++ "." ++
    String.mk [Nat.digitChar (m / 10 % 10), Nat.digitChar (m % 10)]

/-- The injected kernel counter sources for one run of print_stats:
the two /proc/stat first-line readings, the two /proc/net/dev scans, and
the /proc/meminfo contents (read afresh on each get_memory_usage call,
which in this one-shot model always sees the same lines). -/
structure Sources where
  stat1 : String
  stat2 : String
  dev1 : List String
  dev2 : List String
  meminfo : List String

/-- One sampler invocation, for tracing which samplers print_stats
calls and in what order. -/
inductive SamplerCall where
  | cpu
  | net
  | mem
  deriving DecidableEq, BEq

/-- The values print_stats interpolates into its format string:
%0.2f on the scaled CPU utilisation, %s on the integer byte delta,
and the two memory figures after the /1000.0 kilobyte-to-megabyte
conversion (printed with %s, i.e. no fixed decimal constraint). -/
structure Report where
  cpuStr : String
  netStr : String
  memory_used : Rat
  free_memory : Rat
  deriving DecidableEq

/-- print_stats (sysmon.py:112-125).  Evaluation order of the source:
get_cpu_utilisation()*100 (line 119), get_memory_usage() for the
in-use figure (line 120), get_memory_usage() again for the free figure
(line 121), then get_network_interface_traffic while building the print
arguments (line 125).  The trace records each sampler call made before
the run finished or an exception propagated. -/
def printStats (src : Sources) (adaptor : String) : Except Err Report × List SamplerCall :=
  match (getCpuUtilisation src.stat1 src.stat2).1 with
  | .error e => (.error e, [.cpu])
  | .ok util =>
    let cpu_utilisation := util * 100
    match (getMemoryUsage src.meminfo).1 with
    | .error e => (.error e, [.cpu, .mem])
    | .ok mem1 =>
      let memory_used := (mem1.memory_in_use : Rat) / 1000
      match (getMemoryUsage src.meminfo).1 with
      | .error e => (.error e, [.cpu, .mem, .mem])
      | .ok mem2 =>
        let free_memory := (mem2.free_memory : Rat) / 1000
        match (getNetworkInterfaceTraffic adaptor src.dev1 src.dev2).1 with
        | .error e => (.error e, [.cpu, .mem, .mem, .net])
        | .ok traffic =>
          (.ok { cpuStr := formatF2 cpu_utilisation, netStr := toString traffic,
                 memory_used := memory_used, free_memory := free_memory },
           [.cpu, .mem, .mem, .net])

/-- Literal prefix test: does the pattern, read as plain characters, start
the text?  Used only to state that a match is or is not a literal substring
occurrence, in contrast to reSearch. -/
def litHere : List Char → List Char → Bool
  | [], _ => true
  | _ :: _, [] => false
  | p :: ps, c :: cs => p = c && litHere ps cs

/-- Literal substring test at every start position of the text. -/
def litSearchAux (p : List Char) : List Char → Bool
  | [] => litHere p []
  | c :: cs => litHere p (c :: cs) || litSearchAux p cs

/-- Plain substring containment, the reading of interface-name matching
that the specification contrasts with regular-expression search. -/
def litSearch (pat s : String) : Bool :=
  litSearchAux pat.data s.data

/-- Equality of results is decidable, so concrete runs of the samplers can
be checked by evaluation. -/
instance {α : Type} [DecidableEq α] : DecidableEq (Except Err α) := fun a b =>
  match a, b with
  | .ok x, .ok y => if h : x = y then .isTrue (by rw [h]) else .isFalse (by simp [h])
  | .error e, .error f => if h : e = f then .isTrue (by rw [h]) else .isFalse (by simp [h])
  | .ok _, .error _ => .isFalse (by simp)
  | .error _, .ok _ => .isFalse (by simp)

/-- First /proc/stat reading of the end-to-end scenario in the spec. -/
def cpuLine1 : String := "cpu 100 0 100 700 100 0 0 0 0 0"

/-- Second /proc/stat reading of the end-to-end scenario in the spec. -/
def cpuLine2 : String := "cpu 120 0 120 740 120 0 0 0 0 0"

/-- The unrelated loopback line of the network fixture. -/
def loLine : String := "    lo: 999999 0 0 0 0 0 0 0 999999 0 0 0 0 0 0 0"

/-- First scan eth0 line: token index 9 reads 1000. -/
def ethLine1 : String := "eth0: 0 0 0 0 0 0 0 0 1000 0 0 0 0 0 0 0"

/-- Second scan eth0 line: token index 9 reads 1500. -/
def ethLine2 : String := "eth0: 0 0 0 0 0 0 0 0 1500 0 0 0 0 0 0 0"

/-- A well-formed meminfo fixture: 2000 kB total, 500 kB free. -/
def memFix : List String := ["MemTotal: 2000 kB", "MemFree: 500 kB"]

/-- A ten-line /proc/net/dev fixture that mentions several interfaces but
not the one the counterexamples ask for. -/
def devFix : List String :=
  ["Inter-| Receive | Transmit",
   " face |bytes packets errs drop fifo frame compressed multicast|bytes",
   "    lo: 100 0 0 0 0 0 0 0 100 0 0 0 0 0 0 0",
   "  eth1: 200 0 0 0 0 0 0 0 200 0 0 0 0 0 0 0",
   "  eth2: 300 0 0 0 0 0 0 0 300 0 0 0 0 0 0 0",
   "  eth3: 400 0 0 0 0 0 0 0 400 0 0 0 0 0 0 0",
   "  eth4: 500 0 0 0 0 0 0 0 500 0 0 0 0 0 0 0",
   "  eth5: 600 0 0 0 0 0 0 0 600 0 0 0 0 0 0 0",
   "  eth6: 700 0 0 0 0 0 0 0 700 0 0 0 0 0 0 0",
   "  eth7: 800 0 0 0 0 0 0 0 800 0 0 0 0 0 0 0"]

/-- The injected sources of the end-to-end scenario: the spec CPU fixture,
the eth0/lo network fixture, and the meminfo fixture. -/
def srcFix : Sources :=
  { stat1 := cpuLine1, stat2 := cpuLine2,
    dev1 := [loLine, ethLine1], dev2 := [loLine, ethLine2],
    meminfo := memFix }

/-- The line that the wildcard pattern of the regex counterexample selects
even though the pattern is not literally contained in it. -/
def ethXLine1 : String := "ethX: 0 0 0 0 0 0 0 0 777 0 0 0 0 0 0 0"

/-- Second scan of the regex counterexample. -/
def ethXLine2 : String := "ethX: 0 0 0 0 0 0 0 0 888 0 0 0 0 0 0 0"

attribute [local semireducible] Rat.add Rat.sub Rat.mul Rat.inv

/-- Binding a successful Except computation runs the continuation. -/
theorem except_bind_ok {α β : Type} (a : α) (f : α → Except Err β) :
    (Except.ok a : Except Err α) >>= f = f a := rfl

/-- The pure of the Except monad is the ok constructor. -/
theorem except_pure_eq {α : Type} (a : α) : (pure a : Except Err α) = Except.ok a := rfl

/-- Unfolding one iteration of the network matching loop. -/
theorem netLoopAux_cons (iface : String) (a : List String) (hd : String) (tl : List String) :
    netLoopAux iface a (hd :: tl) = netLoopAux iface (netLoopStep iface a hd) tl := rfl

/-- If no line matches, the network matching loop leaves its accumulator
untouched: network_stats is still the raw line list after the loop. -/
theorem netLoopAux_nomatch (iface : String) (a s : List String)
    (h : ∀ l ∈ s, reSearch iface l = false) : netLoopAux iface a s = a := by
  induction s generalizing a with
  | nil => rfl
  | cons hd tl ih =>
    rw [netLoopAux_cons]
    have hhd : netLoopStep iface a hd = a := by
      simp [netLoopStep, h hd (by simp)]
    rw [hhd]
    exact ih a fun l hl => h l (by simp [hl])

/-- As soon as some line of the scan matches, the result of the network
matching loop does not depend on the accumulator it started from. -/
theorem netLoopAux_congr_init (iface : String) (a b s : List String)
    (hm : ∃ l ∈ s, reSearch iface l = true) :
    netLoopAux iface a s = netLoopAux iface b s := by
  induction s generalizing a b with
  | nil => rcases hm with ⟨l, hl, _⟩; cases hl
  | cons hd tl ih =>
    rw [netLoopAux_cons, netLoopAux_cons]
    by_cases hh : reSearch iface hd = true
    · have hstep : netLoopStep iface a hd = netLoopStep iface b hd := by
        simp [netLoopStep, hh]
      rw [hstep]
    · have ha : netLoopStep iface a hd = a := by simp [netLoopStep, hh]
      have hb : netLoopStep iface b hd = b := by simp [netLoopStep, hh]
      rw [ha, hb]
      refine ih a b ?_
      rcases hm with ⟨l, hl, hlt⟩
      rcases List.mem_cons.mp hl with rfl | hmem
      · exact absurd hlt hh
      · exact ⟨l, hmem, hlt⟩

/-- Digits below ten print as digit characters. -/
theorem digitChar_isDigit : ∀ n, n < 10 → (Nat.digitChar n).isDigit = true := by decide

/-- The output of the fixed-two-decimals formatter always ends in a dot
followed by exactly two digit characters. -/
theorem formatF2_decimals (q : Rat) :
    ∃ hd d1 d0, formatF2 q = hd ++ "." ++ String.mk [d1, d0] ∧
      d1.isDigit = true ∧ d0.isDigit = true := by
  refine ⟨(if round (q * 100) < 0 then "-" else "") ++
      toString ((round (q * 100)).natAbs / 100),
    Nat.digitChar ((round (q * 100)).natAbs / 10 % 10),
    Nat.digitChar ((round (q * 100)).natAbs % 10), rfl, ?_, ?_⟩
  · exact digitChar_isDigit _ (Nat.mod_lt _ (by norm_num))
  · exact digitChar_isDigit _ (Nat.mod_lt _ (by norm_num))

/-- C1: for every pair of CPU statistics lines whose numeric fields parse,
with idle the fourth numeric field (token 4) and total the sum of the first
five numeric fields (tokens 1 to 5), and a nonzero total delta,
get_cpu_utilisation returns 1 - (idle2 - idle1) / (total2 - total1). -/
theorem c1_cpu_utilisation_formula (l1 l2 : String) (u1 n1 s1 i1 w1 u2 n2 s2 i2 w2 : Rat)
    (h1u : getTok (splitWS l1) 1 >>= pyFloat = .ok u1)
    (h1n : getTok (splitWS l1) 2 >>= pyFloat = .ok n1)
    (h1s : getTok (splitWS l1) 3 >>= pyFloat = .ok s1)
    (h1i : getTok (splitWS l1) 4 >>= pyFloat = .ok i1)
    (h1w : getTok (splitWS l1) 5 >>= pyFloat = .ok w1)
    (h2u : getTok (splitWS l2) 1 >>= pyFloat = .ok u2)
    (h2n : getTok (splitWS l2) 2 >>= pyFloat = .ok n2)
    (h2s : getTok (splitWS l2) 3 >>= pyFloat = .ok s2)
    (h2i : getTok (splitWS l2) 4 >>= pyFloat = .ok i2)
    (h2w : getTok (splitWS l2) 5 >>= pyFloat = .ok w2)
    (hden : (u2 + n2 + s2 + i2 + w2) - (u1 + n1 + s1 + i1 + w1) ≠ 0) :
    (getCpuUtilisation l1 l2).1 =
      .ok (1 - (i2 - i1) / ((u2 + n2 + s2 + i2 + w2) - (u1 + n1 + s1 + i1 + w1))) := by
  have p1 : parseCpuLine l1 = .ok (i1, u1 + n1 + s1 + i1 + w1) := by
    simp only [parseCpuLine, h1u, h1n, h1s, h1i, h1w, except_bind_ok, except_pure_eq]
  have p2 : parseCpuLine l2 = .ok (i2, u2 + n2 + s2 + i2 + w2) := by
    simp only [parseCpuLine, h2u, h2n, h2s, h2i, h2w, except_bind_ok, except_pure_eq]
  simp only [getCpuUtilisation, p1, p2, pyDiv, if_neg hden]

/-- C1 witness: the end-to-end scenario of the spec, utilisation 0.60. -/
theorem c1_witness : (getCpuUtilisation cpuLine1 cpuLine2).1 = .ok (3 / 5) := by
  have h := c1_cpu_utilisation_formula cpuLine1 cpuLine2 100 0 100 700 100 120 0 120 740 120
    (by decide) (by decide) (by decide) (by decide) (by decide)
    (by decide) (by decide) (by decide) (by decide) (by decide) (by decide)
  rw [h]
  decide

/-- C2: for any two network scans whose last eth0-matching line carries
token 1000 respectively 1500 at index 9, the sampler returns 500; and a
line that does not match eth0, such as the loopback line, can be added
without changing the result. -/
theorem c2_network_delta (s1 s2 : List String)
    (hm : ∃ l ∈ s1, reSearch "eth0" l = true)
    (h1 : getTok (netLoop "eth0" s1) 9 = .ok "1000")
    (h2 : getTok (netLoop "eth0" s2) 9 = .ok "1500") :
    (getNetworkInterfaceTraffic "eth0" s1 s2).1 = .ok 500 ∧
    ∀ lo, reSearch "eth0" lo = false →
      (getNetworkInterfaceTraffic "eth0" (lo :: s1) s2).1 =
        (getNetworkInterfaceTraffic "eth0" s1 s2).1 := by
  have e1 : pyInt "1000" = .ok 1000 := by decide
  have e2 : pyInt "1500" = .ok 1500 := by decide
  constructor
  · simp only [getNetworkInterfaceTraffic, h1, except_bind_ok, e1, e2, h2]
    decide
  · intro lo hlo
    have hnl : netLoop "eth0" (lo :: s1) = netLoop "eth0" s1 := by
      rw [netLoop, netLoop, netLoopAux_cons]
      have hstep : netLoopStep "eth0" (lo :: s1) lo = lo :: s1 := by
        simp [netLoopStep, hlo]
      rw [hstep]
      exact netLoopAux_congr_init "eth0" (lo :: s1) s1 s1 hm
    simp only [getNetworkInterfaceTraffic, hnl]

/-- C2 witness: the synthetic eth0 fixture with the unrelated lo line. -/
theorem c2_witness :
    (getNetworkInterfaceTraffic "eth0" [loLine, ethLine1] [loLine, ethLine2]).1 = .ok 500 :=
  (c2_network_delta [loLine, ethLine1] [loLine, ethLine2]
    (by decide) (by decide) (by decide)).1

/-- C3: whenever the memory loop finds a MemTotal line and a MemFree line
and their second tokens parse as integers, get_memory_usage returns a
dictionary with memory_in_use + free_memory equal to the total exactly. -/
theorem c3_memory_sum (lines : List String) (tTok fTok : List String) (tVal fVal : Int)
    (ht : (memLoop lines).1 = some tTok)
    (hf : (memLoop lines).2 = some fTok)
    (htv : getTok tTok 1 >>= pyInt = .ok tVal)
    (hfv : getTok fTok 1 >>= pyInt = .ok fVal) :
    ∃ m, (getMemoryUsage lines).1 = .ok m ∧ m.memory_in_use + m.free_memory = tVal := by
  have hml : memLoop lines = (some tTok, some fTok) := by
    rw [← ht, ← hf]
  refine ⟨⟨tVal - fVal, fVal⟩, ?_, by show tVal - fVal + fVal = tVal; omega⟩
  simp only [getMemoryUsage, hml, htv, hfv, except_bind_ok]

/-- C3 witness: the meminfo fixture, 1500 + 500 = 2000. -/
theorem c3_witness :
    ∃ m, (getMemoryUsage memFix).1 = .ok m ∧ m.memory_in_use + m.free_memory = 2000 :=
  c3_memory_sum memFix ["MemTotal:", "2000", "kB"] ["MemFree:", "500", "kB"] 2000 500
    (by decide) (by decide) (by decide) (by decide)

/-- C4: when the two CPU readings parse to equal totals, the division by
the zero total delta raises, so get_cpu_utilisation fails and never
returns a value (in particular not 0, and the rational model has no NaN
or infinity to return). -/
theorem c4_degenerate_interval (l1 l2 : String) (u1 n1 s1 i1 w1 u2 n2 s2 i2 w2 : Rat)
    (h1u : getTok (splitWS l1) 1 >>= pyFloat = .ok u1)
    (h1n : getTok (splitWS l1) 2 >>= pyFloat = .ok n1)
    (h1s : getTok (splitWS l1) 3 >>= pyFloat = .ok s1)
    (h1i : getTok (splitWS l1) 4 >>= pyFloat = .ok i1)
    (h1w : getTok (splitWS l1) 5 >>= pyFloat = .ok w1)
    (h2u : getTok (splitWS l2) 1 >>= pyFloat = .ok u2)
    (h2n : getTok (splitWS l2) 2 >>= pyFloat = .ok n2)
    (h2s : getTok (splitWS l2) 3 >>= pyFloat = .ok s2)
    (h2i : getTok (splitWS l2) 4 >>= pyFloat = .ok i2)
    (h2w : getTok (splitWS l2) 5 >>= pyFloat = .ok w2)
    (heq : u2 + n2 + s2 + i2 + w2 = u1 + n1 + s1 + i1 + w1) :
    (getCpuUtilisation l1 l2).1 = .error .zeroDivisionError ∧
    ∀ q : Rat, (getCpuUtilisation l1 l2).1 ≠ .ok q := by
  have p1 : parseCpuLine l1 = .ok (i1, u1 + n1 + s1 + i1 + w1) := by
    simp only [parseCpuLine, h1u, h1n, h1s, h1i, h1w, except_bind_ok, except_pure_eq]
  have p2 : parseCpuLine l2 = .ok (i2, u2 + n2 + s2 + i2 + w2) := by
    simp only [parseCpuLine, h2u, h2n, h2s, h2i, h2w, except_bind_ok, except_pure_eq]
  have hz : (u2 + n2 + s2 + i2 + w2) - (u1 + n1 + s1 + i1 + w1) = 0 := by
    rw [heq, sub_self]
  have hmain : (getCpuUtilisation l1 l2).1 = .error .zeroDivisionError := by
    simp only [getCpuUtilisation, p1, p2, pyDiv, if_pos hz]
  exact ⟨hmain, fun q hq => by rw [hmain] at hq; cases hq⟩

/-- C4 witness: identical readings give a zero total delta and the
division-by-zero failure. -/
theorem c4_witness : (getCpuUtilisation cpuLine1 cpuLine1).1 = .error .zeroDivisionError :=
  (c4_degenerate_interval cpuLine1 cpuLine1 100 0 100 700 100 100 0 100 700 100
    (by decide) (by decide) (by decide) (by decide) (by decide)
    (by decide) (by decide) (by decide) (by decide) (by decide) (by decide)).1

/-- C5 counterexample: on a ten-line source with no line matching "xyz",
get_network_interface_traffic raises the generic int() parse failure
carrying the raw tenth line of the scan; the error does not carry the
requested interface name (the name is not even a substring of the message)
and is the same ValueError shape as any other parse error, so there is no
distinct interface-not-found error. -/
theorem c5_counterexample :
    (getNetworkInterfaceTraffic "xyz" devFix devFix).1 =
      .error (.valueError "  eth7: 800 0 0 0 0 0 0 0 800 0 0 0 0 0 0 0") ∧
    litSearch "xyz" "  eth7: 800 0 0 0 0 0 0 0 800 0 0 0 0 0 0 0" = false := by
  decide

/-- C5 amended: when no line of the first scan matches the interface and
the scan has a tenth line that does not parse as an integer, the sampler
fails with the ValueError carrying that raw line, not with an
interface-not-found error naming the interface. -/
theorem c5_no_match_parse_error (iface lineTen : String) (s1 s2 : List String)
    (hnm : ∀ l ∈ s1, reSearch iface l = false)
    (h9 : s1.get? 9 = some lineTen)
    (hp : pyInt lineTen = .error (.valueError lineTen)) :
    (getNetworkInterfaceTraffic iface s1 s2).1 = .error (.valueError lineTen) := by
  have hl : netLoop iface s1 = s1 := netLoopAux_nomatch iface s1 s1 hnm
  have ht : getTok (netLoop iface s1) 9 = .ok lineTen := by
    rw [hl]
    simp only [getTok, h9]
  simp only [getNetworkInterfaceTraffic, ht, except_bind_ok, hp]

/-- C5 amended witness: the ten-line fixture with interface "xyz". -/
theorem c5_witness :
    (getNetworkInterfaceTraffic "xyz" devFix devFix).1 =
      .error (.valueError "  eth7: 800 0 0 0 0 0 0 0 800 0 0 0 0 0 0 0") :=
  c5_no_match_parse_error "xyz" "  eth7: 800 0 0 0 0 0 0 0 800 0 0 0 0 0 0 0" devFix devFix
    (by decide) (by decide) (by decide)

/-- C6 counterexample: on the end-to-end fixture, print_stats calls the
memory sampler twice, not once (once for the in-use figure at line 120 of
the source and once for the free figure at line 121). -/
theorem c6_counterexample :
    (printStats srcFix "eth0").2.count SamplerCall.mem = 2 ∧
    ¬ (printStats srcFix "eth0").2.count SamplerCall.mem = 1 := by
  decide

/-- C6 amended: every successful run of print_stats calls the CPU sampler
once, then the memory sampler exactly twice, then the network sampler
once; the two memory figures therefore come from two separate reads of
the memory source (which agree in this model because the injected source
is fixed). -/
theorem c6_memory_sampled_twice (src : Sources) (adaptor : String) (r : Report)
    (h : (printStats src adaptor).1 = .ok r) :
    (printStats src adaptor).2 = [.cpu, .mem, .mem, .net] ∧
    (printStats src adaptor).2.count SamplerCall.mem = 2 := by
  rcases hc : (getCpuUtilisation src.stat1 src.stat2).1 with e | u
  · unfold printStats at h
    rw [hc] at h
    simp at h
  rcases hm1 : (getMemoryUsage src.meminfo).1 with e | m1
  · unfold printStats at h
    rw [hc, hm1] at h
    simp at h
  rcases hn : (getNetworkInterfaceTraffic adaptor src.dev1 src.dev2).1 with e | t
  · unfold printStats at h
    rw [hc, hm1, hn] at h
    simp at h
  constructor
  · unfold printStats
    rw [hc, hm1, hn]
  · unfold printStats
    rw [hc, hm1, hn]
    rfl

/-- C6 amended witness: the trace of the end-to-end fixture. -/
theorem c6_witness :
    (printStats srcFix "eth0").2 = [SamplerCall.cpu, .mem, .mem, .net] :=
  (c6_memory_sampled_twice srcFix "eth0" ⟨"60.00", "500", 3 / 2, 1 / 2⟩ (by decide)).1

/-- C7: in every successful report, the CPU figure is the utilisation
scaled to percent and formatted with exactly two digits after the decimal
point, the network figure is the decimal rendering of the integer byte
delta, and both memory figures are the sampled kilobyte counts divided by
1000 (and, when nonzero, differ from a division by 1024). -/
theorem c7_report_formatting (src : Sources) (adaptor : String) (r : Report)
    (h : (printStats src adaptor).1 = .ok r) :
    (∃ u, (getCpuUtilisation src.stat1 src.stat2).1 = .ok u ∧
      r.cpuStr = formatF2 (u * 100) ∧
      ∃ hd d1 d0, r.cpuStr = hd ++ "." ++ String.mk [d1, d0] ∧
        d1.isDigit = true ∧ d0.isDigit = true) ∧
    (∃ t, (getNetworkInterfaceTraffic adaptor src.dev1 src.dev2).1 = .ok t ∧
      r.netStr = toString t) ∧
    (∃ m, (getMemoryUsage src.meminfo).1 = .ok m ∧
      r.memory_used = (m.memory_in_use : Rat) / 1000 ∧
      r.free_memory = (m.free_memory : Rat) / 1000 ∧
      (m.memory_in_use ≠ 0 → r.memory_used ≠ (m.memory_in_use : Rat) / 1024)) := by
  rcases hc : (getCpuUtilisation src.stat1 src.stat2).1 with e | u
  · unfold printStats at h
    rw [hc] at h
    simp at h
  rcases hm1 : (getMemoryUsage src.meminfo).1 with e | m1
  · unfold printStats at h
    rw [hc, hm1] at h
    simp at h
  rcases hn : (getNetworkInterfaceTraffic adaptor src.dev1 src.dev2).1 with e | t
  · unfold printStats at h
    rw [hc, hm1, hn] at h
    simp at h
  unfold printStats at h
  rw [hc, hm1, hn] at h
  simp only [Except.ok.injEq] at h
  subst h
  refine ⟨⟨u, rfl, rfl, formatF2_decimals (u * 100)⟩, ⟨t, rfl, rfl⟩, m1, rfl, rfl, rfl, ?_⟩
  intro hne heq
  apply hne
  rw [div_eq_div_iff (by norm_num) (by norm_num)] at heq
  have hzero : (m1.memory_in_use : Rat) = 0 := by linarith
  exact_mod_cast hzero

/-- C7 witness: the network figure of the end-to-end fixture is the
decimal rendering of the 500-byte delta. -/
theorem c7_witness :
    ∃ t, (getNetworkInterfaceTraffic "eth0" srcFix.dev1 srcFix.dev2).1 = .ok t ∧
      (⟨"60.00", "500", 3 / 2, 1 / 2⟩ : Report).netStr = toString t :=
  (c7_report_formatting srcFix "eth0" ⟨"60.00", "500", 3 / 2, 1 / 2⟩ (by decide)).2.1

/-- C8: the samplers do not close their file handle on every exit path.
get_memory_usage never calls close, so even its successful run on a
well-formed source ends with the handle open; get_cpu_utilisation and
get_network_interface_traffic skip their close call on parse-error exits. -/
theorem c8_handle_left_open :
    getMemoryUsage memFix = (.ok ⟨1500, 500⟩, false) ∧
    getCpuUtilisation "cpu" "cpu" = (.error .indexError, false) ∧
    (getNetworkInterfaceTraffic "xyz" devFix devFix).2 = false := by
  decide

/-- C9: the interface name is used as a regular-expression pattern, not a
literal substring: the pattern eth. is not literally contained in the
ethX line, yet re.search selects that line, and the sampler reads its
token 9 counters (888 - 777 = 111). -/
theorem c9_interface_name_is_regex :
    litSearch "eth." ethXLine1 = false ∧
    reSearch "eth." ethXLine1 = true ∧
    netLoop "eth." [ethXLine1] = splitWS ethXLine1 ∧
    (getNetworkInterfaceTraffic "eth." [ethXLine1] [ethXLine2]).1 = .ok 111 := by
  decide

/-- C10: both matching loops keep overwriting their result without
breaking, so a matching line appended at the end of the source wins:
the network loop returns the tokens of the final matching line, and the
memory loop binds MemTotal and MemFree to the tokens of the final lines
matching their labels. -/
theorem c10_last_match_wins (iface lineN lineT lineF : String) (s1 s2 s3 : List String)
    (hn : reSearch iface lineN = true)
    (ht : reSearch "MemTotal:" lineT = true)
    (hf : reSearch "MemFree" lineF = true) :
    netLoop iface (s1 ++ [lineN]) = splitWS lineN ∧
    (memLoop (s2 ++ [lineT])).1 = some (splitWS lineT) ∧
    (memLoop (s3 ++ [lineF])).2 = some (splitWS lineF) := by
  refine ⟨?_, ?_, ?_⟩
  · rw [netLoop, netLoopAux, List.foldl_append]
    simp [netLoopStep, hn]
  · rw [memLoop, List.foldl_append]
    rcases hmf : reSearch "MemFree" lineT with _ | _ <;>
      simp [memLoopStep, ht, hmf]
  · rw [memLoop, List.foldl_append]
    rcases hmt : reSearch "MemTotal:" lineF with _ | _ <;>
      simp [memLoopStep, hf, hmt]

/-- C10 witness: duplicate MemTotal and MemFree lines, the later ones
selected; the eth0 line appended after the loopback line selected. -/
theorem c10_witness :
    netLoop "eth0" ([loLine] ++ [ethLine1]) = splitWS ethLine1 ∧
    (memLoop (["MemTotal: 1 kB"] ++ ["MemTotal: 2000 kB"])).1 =
      some (splitWS "MemTotal: 2000 kB") ∧
    (memLoop (["MemFree: 1 kB"] ++ ["MemFree: 500 kB"])).2 =
      some (splitWS "MemFree: 500 kB") :=
  c10_last_match_wins "eth0" ethLine1 "MemTotal: 2000 kB" "MemFree: 500 kB"
    [loLine] ["MemTotal: 1 kB"] ["MemFree: 1 kB"]
    (by decide) (by decide) (by decide)

end SysMon
